import Mathlib

/-!
Verification of the ReplyGuy X reply bot.

Shallow embedding of the core logic of the ReplyGuy repository:

* `src/reply_engine.py` — `ReplyEngine.generate_reply`, `ReplyEngine._fallback_reply`,
  `ReplyEngine.is_appropriate_tweet` and their string-cleaning helpers;
* `src/database.py`  — `Database.has_replied`, `Database.mark_replied` over the
  `replied_tweets` table (primary key `tweet_id`, `INSERT OR REPLACE` upsert);
* `src/bot.py`       — `XReplyBot.run_once`, the orchestrating run loop.

Python strings are modelled as `List Char` (one entry per code point, matching
Python's `len` / slicing semantics).  Case-mapping predicates (`str.lower`,
`str.isupper`) are modelled on the ASCII fragment, over which they agree with
Python; no claim depends on non-ASCII case folding.  Effectful collaborators
(the Selenium feed, the Ollama backend, the SQLite connection, the clock and
the random number generator) are modelled as an explicit environment of
oracles, so the orchestrator becomes a pure function of that environment.
-/

namespace ReplyGuy

/-- Python strings as lists of code points. -/
abbrev PyStr := List Char

/-- An apostrophe character, used to spell fallback phrases. -/
def squote : Char := '\x27'

/-- The whitespace characters stripped by Python `str.strip()` (ASCII fragment:
space, tab, newline, carriage return, vertical tab, form feed). -/
def pyIsSpace (c : Char) : Bool :=
  c = ' ' || c = '\t' || c = '\n' || c = '\r' || c = '\x0b' || c = '\x0c'

/-- Python `str.strip()`: drop leading and trailing whitespace. -/
def pyStrip (s : PyStr) : PyStr :=
  ((s.dropWhile pyIsSpace).reverse.dropWhile pyIsSpace).reverse

namespace ReplyEngine

/-- Token `<end_of_turn>`, the delimiter token removed from raw model output
(`reply_engine.py` line 152). -/
def endOfTurnToken : PyStr := "<end_of_turn>".toList

/-- Fuelled worker for `pyReplaceEmpty`.  Each step either copies one character
or removes one occurrence of `old` (consuming `old.length ≥ 1` characters), so
fuel equal to the string length suffices to process the whole string. -/
def removeAllAux (old : List Char) : Nat → List Char → List Char
  | 0, s => s
  | _ + 1, [] => []
  | fuel + 1, c :: rest =>
    if old.isPrefixOf (c :: rest) then
      removeAllAux old fuel ((c :: rest).drop old.length)
    else
      c :: removeAllAux old fuel rest

/-- Python `s.replace(old, "")` for a non-empty pattern `old`: remove every
(leftmost, non-overlapping) occurrence of `old` from `s`. -/
def pyReplaceEmpty (old s : PyStr) : PyStr := removeAllAux old s.length s

/-- Strip a matching pair of wrapping double quotes, then a matching pair of
wrapping single quotes (`reply_engine.py` lines 155-158).  Python
`reply[1:-1]` is `(r.drop 1).dropLast`. -/
def stripWrappingQuotes (r : PyStr) : PyStr :=
  let r1 := if ['"'].isPrefixOf r && ['"'].isSuffixOf r
            then pyStrip ((r.drop 1).dropLast) else r
  if [squote].isPrefixOf r1 && [squote].isSuffixOf r1
  then pyStrip ((r1.drop 1).dropLast) else r1

/-- The filler markers removed from the front of replies
(`prefixes_to_remove`, `reply_engine.py` line 161). -/
def removableMarkers : List PyStr :=
  [ "Reply:".toList, "reply:".toList, "Response:".toList, "response:".toList,
    "Here".toList ++ [squote, 's'], "Here is".toList ]

/-- One iteration of the marker-removal loop: if `reply.lower()` starts with
`p.lower()`, drop `p.length` characters and strip; then drop a leading colon
if present and strip again (`reply_engine.py` lines 162-167). -/
def dropMarker (r p : PyStr) : PyStr :=
  if (p.map Char.toLower).isPrefixOf (r.map Char.toLower) then
    let r1 := pyStrip (r.drop p.length)
    if [':'].isPrefixOf r1 then pyStrip (r1.drop 1) else r1
  else r

/-- The full marker-removal loop over all markers, in order. -/
def dropMarkers (r : PyStr) : PyStr := removableMarkers.foldl dropMarker r

/-- Membership in the emoji character class of `_remove_emojis`
(`reply_engine.py` lines 207-216). -/
def isEmojiChar (c : Char) : Bool :=
  let n := c.toNat
  (0x1F600 ≤ n && n ≤ 0x1F64F) || (0x1F300 ≤ n && n ≤ 0x1F5FF) ||
  (0x1F680 ≤ n && n ≤ 0x1F6FF) || (0x1F1E0 ≤ n && n ≤ 0x1F1FF) ||
  (0x2702 ≤ n && n ≤ 0x27B0) || (0x24C2 ≤ n && n ≤ 0x1F251)

/-- Model of `ReplyEngine._remove_emojis`: delete all emoji characters, then strip. -/
def remove_emojis (s : PyStr) : PyStr := pyStrip (s.filter (fun c => !isEmojiChar c))

/-- Python `str.rfind` restricted to single characters, returning the index of
the last occurrence (`none` models Python's `-1`). -/
def pyRfind (c : Char) : PyStr → Option Nat
  | [] => none
  | x :: rest =>
    match pyRfind c rest with
    | some i => some (i + 1)
    | none => if x = c then some 0 else none

/-- The length policy of `generate_reply` (`reply_engine.py` lines 173-179):
if the reply exceeds 200 characters, cut at the last period within the first
197 characters when one exists (`'.' in reply[:197]` guarantees `rfind`
succeeds, so the `getD 0` default is never used), otherwise hard-truncate to
197 characters and append `"..."`. -/
def truncate200 (reply : PyStr) : PyStr :=
  if 200 < reply.length then
    if (reply.take 197).contains '.' then
      reply.take ((pyRfind '.' (reply.take 197)).getD 0 + 1)
    else
      reply.take 197 ++ "...".toList
  else reply

/-- The cleaning pipeline applied to one non-empty raw backend response
(`reply_engine.py` lines 150-179): remove `<end_of_turn>` tokens and strip,
strip wrapping quotes, drop filler markers, remove emojis, apply the length
policy. -/
def clean_reply (raw : PyStr) : PyStr :=
  truncate200 (remove_emojis (dropMarkers (stripWrappingQuotes
    (pyStrip (pyReplaceEmpty endOfTurnToken raw)))))

/-- One generation attempt (`reply_engine.py` lines 144-193).  The input is
the backend response: `none` models a request error inside `_query_ollama`
(which returns `None`); `some s` models a JSON `response` field `s`, which
`_query_ollama` strips.  The attempt fails (`none`, i.e. raises and is caught
by the retry loop) when the response is missing or empty (`if not reply`)
or when the cleaned reply is shorter than 5 characters. -/
def attempt_reply (resp : Option PyStr) : Option PyStr :=
  match resp.map pyStrip with
  | none => none
  | some reply =>
    if reply = [] then none
    else
      let cleaned := clean_reply reply
      if cleaned.length < 5 then none else some cleaned

/-- The fixed fallback phrase list of `ReplyEngine._fallback_reply`
(`reply_engine.py` lines 221-242). -/
def fallbacks : List PyStr :=
  [ "Interesting!".toList,
    "Great point, definitely something to think about.".toList,
    "Love seeing this kind of content, keep it up.".toList,
    "Solid take btw.".toList,
    "Sounds interesting.".toList,
    "Nice perspective on this.".toList,
    "Well said.".toList,
    "Good stuff.".toList,
    "That".toList ++ squote :: "s a great thought.".toList,
    "Appreciate this insight.".toList,
    "Glad you shared this.".toList,
    "This is worth reflecting on.".toList,
    "Strong point you made here.".toList,
    "Thanks for the perspective.".toList,
    "Really like this viewpoint.".toList,
    "Good point, appreciate you sharing.".toList,
    "This makes sense to me.".toList,
    "Nice one, thanks for sharing.".toList,
    "Thoughtful take on this.".toList,
    "Love this kind of discussion.".toList ]

/-- Model of `ReplyEngine._fallback_reply`: `random.choice(fallbacks)`.  The random
draw is modelled by an arbitrary environment-supplied index, reduced modulo
the list length; `random.choice` picks each index with equal probability. -/
def fallback_reply (idx : Nat) : PyStr := fallbacks.getD (idx % fallbacks.length) []

/-- Model of `ReplyEngine.generate_reply` (`reply_engine.py` lines 126-201): up to
3 attempts against the backend (`max_retries = 3`); the first successful
attempt's cleaned reply is returned; if the last attempt fails too, the
re-raised error is caught by the outer handler and a fallback phrase is
returned.  `attempts i` is the backend response of attempt `i`; `fbIdx`
models the random draw of `_fallback_reply`. -/
def generate_reply (attempts : Fin 3 → Option PyStr) (fbIdx : Nat) : PyStr :=
  match attempt_reply (attempts 0) with
  | some r => r
  | none =>
    match attempt_reply (attempts 1) with
    | some r => r
    | none =>
      match attempt_reply (attempts 2) with
      | some r => r
      | none => fallback_reply fbIdx

/-- The deny-list of `is_appropriate_tweet` (`reply_engine.py` lines 256-260). -/
def blocklist : List PyStr :=
  [ "kill".toList, "death".toList, "die".toList, "suicide".toList, "hate".toList,
    "violence".toList, "attack".toList, "war".toList, "terror".toList, "bomb".toList,
    "gun".toList, "weapon".toList ]

/-- Python substring membership `needle in haystack`: `needle` occurs as a
contiguous substring of `haystack` (the empty string occurs in every string). -/
def pySubstr (needle : PyStr) : PyStr → Bool
  | [] => needle.isEmpty
  | c :: rest => needle.isPrefixOf (c :: rest) || pySubstr needle rest

/-- Python `str.isupper` on the ASCII fragment: at least one cased character
and no cased character lowercase. -/
def pyIsupper (s : PyStr) : Bool :=
  s.any Char.isUpper && s.all (fun c => !c.isLower)

/-- Model of `ReplyEngine.is_appropriate_tweet` (`reply_engine.py` lines 245-276):
reject empty text; reject if any deny-list word occurs as a substring of the
lowercased text; reject text shorter than 10 characters after stripping;
reject all-uppercase text longer than 20 characters; accept otherwise.
A pure function of its argument. -/
def is_appropriate_tweet (tweet_text : PyStr) : Bool :=
  if tweet_text = [] then false
  else
    let text_lower := tweet_text.map Char.toLower
    if blocklist.any (fun w => pySubstr w text_lower) then false
    else if (pyStrip tweet_text).length < 10 then false
    else if pyIsupper tweet_text && 20 < tweet_text.length then false
    else true

end ReplyEngine

namespace Database

/-- One row of the `replied_tweets` table (`database.py` lines 29-37):
`tweet_id TEXT PRIMARY KEY, username, tweet_text, reply_text, replied_at`. -/
structure HistoryRow where
  tweet_id : String
  username : PyStr
  tweet_text : PyStr
  reply_text : PyStr
  replied_at : Int
deriving DecidableEq

/-- Model of `Database.has_replied` (`database.py` lines 44-53): `SELECT 1 FROM
replied_tweets WHERE tweet_id = ?` and test whether a row came back; if the
query raises, log and return `False`.  `queryOk` models whether the query
succeeds. -/
def has_replied (queryOk : Bool) (table : List HistoryRow) (tweet_id : String) : Bool :=
  if queryOk then table.any (fun row => row.tweet_id == tweet_id) else false

/-- Model of `Database.mark_replied` (`database.py` lines 55-67): `INSERT OR REPLACE`
keyed by the primary key `tweet_id` — any existing row with that key is
deleted and the fresh row is inserted (appended, receiving a new rowid); a
write error is logged and leaves the table unchanged.  `writeOk` models
whether the write succeeds, `now` models `datetime.now()`. -/
def mark_replied (writeOk : Bool) (table : List HistoryRow)
    (tweet_id : String) (username tweet_text reply_text : PyStr) (now : Int) :
    List HistoryRow :=
  if writeOk then
    table.filter (fun row => !(row.tweet_id == tweet_id)) ++
      [⟨tweet_id, username, tweet_text, reply_text, now⟩]
  else table

/-- The multiset of keys present in the table. -/
def keys (table : List HistoryRow) : List String := table.map HistoryRow.tweet_id

end Database

namespace Bot

open Database

/-- The post data extracted by `PostFetcher.extract_post_data` for one feed
element (`fetch_posts.py` lines 117-148): the `tweet_id`, the `username`
(`'unknown'` sentinel already applied) and the tweet `text`.  The opaque
`element` locator is only handed back to the dispatcher and is not modelled. -/
structure Post where
  tweet_id : String
  username : PyStr
  text : PyStr
deriving DecidableEq

/-- Outcome of one `ActionPerformer.reply_to_tweet` call as observed by the
orchestrator: returned `True`, returned `False`, or raised. -/
inductive SubmitRes
  | success
  | failed
  | exc
deriving DecidableEq

/-- Observable events of one `run_once` execution, in program order. -/
inductive Event
  /-- One scan attempt: a `random_scroll_feed` followed by
  `get_visible_tweet_elements` (`bot.py` lines 171-213). -/
  | scan
  /-- `reply_engine.generate_reply` invoked for this tweet id (`bot.py` 233). -/
  | generate (tweet_id : String)
  /-- The rate-limiting check ran; `wait` is the sleep performed
  (`bot.py` lines 246-251; `wait = 0` when no sleep happens). -/
  | rateLimit (wait : Int)
  /-- `action_performer.reply_to_tweet` invoked for this tweet id (`bot.py` 256). -/
  | submit (tweet_id : String)
  /-- A `HistoryRecord` for this tweet id was written by `db.mark_replied`
  (`bot.py` 259; emitted only when the write succeeds). -/
  | record (tweet_id : String)
deriving DecidableEq

/-- Why the `run_once` loop stopped. -/
inductive ExitReason
  /-- `replies_made` reached `max_replies_per_run` (`bot.py` 162). -/
  | quotaReached
  /-- `consecutive_failures` reached `MAX_FAILURES` (`bot.py` 218-220). -/
  | aborted
  /-- Modelling fuel exhausted (the Python loop can run unboundedly when
  submissions keep failing; fuel bounds the number of loop iterations). -/
  | fuelOut
deriving DecidableEq

/-- The environment of effectful collaborators consumed by `run_once`, as
oracles indexed by call count.  `scans i` is the (already shuffled) element
list of the `i`-th scan attempt, each element being the result of
`extract_post_data` (`none` for extraction failure or a stale-element
exception).  `readOk`/`writeOk` tell whether the `i`-th database read/write
succeeds.  `submitRes i` is the outcome of the `i`-th `reply_to_tweet` call.
`clock i` is the `i`-th wall-clock reading (seconds).  `genResponses i` /
`genFallbackIdx i` drive the `i`-th `generate_reply` call (the three backend
responses and the fallback random draw). -/
structure Env where
  scans : Nat → List (Option Post)
  readOk : Nat → Bool
  writeOk : Nat → Bool
  submitRes : Nat → SubmitRes
  clock : Nat → Int
  genResponses : Nat → Fin 3 → Option PyStr
  genFallbackIdx : Nat → Nat

/-- The mutable run state of `XReplyBot.run_once`, plus the oracle cursors. -/
structure St where
  repliesMade : Nat
  consecutiveFailures : Nat
  lastReplyTime : Int
  table : List HistoryRow
  scanIdx : Nat
  readIdx : Nat
  writeIdx : Nat
  submitIdx : Nat
  clockIdx : Nat
  genIdx : Nat
deriving DecidableEq

/-- Constant `self.max_replies_per_run` (`bot.py` 54). -/
def max_replies_per_run : Nat := 20

/-- Constant `self.min_delay_between_replies` (`bot.py` 55). -/
def min_delay_between_replies : Int := 30

/-- Constant `MAX_FAILURES` (`bot.py` 149). -/
def MAX_FAILURES : Nat := 5

/-- The scan-attempt bound of the inner search loop (`bot.py` 171). -/
def scan_attempts_bound : Nat := 10

/-- The `for element in visible_elements` body (`bot.py` lines 183-210):
skip elements whose extraction failed, skip candidates the database reports
as already replied, skip candidates the suitability filter rejects, and stop
at the first acceptable candidate.  `rIdx` is the `has_replied` call cursor
(one call per successfully extracted element). -/
def scanCandidates (readOk : Nat → Bool) (table : List HistoryRow) :
    List (Option Post) → Nat → Option Post × Nat
  | [], rIdx => (none, rIdx)
  | none :: rest, rIdx => scanCandidates readOk table rest rIdx
  | some p :: rest, rIdx =>
    if has_replied (readOk rIdx) table p.tweet_id then
      scanCandidates readOk table rest (rIdx + 1)
    else if !(ReplyEngine.is_appropriate_tweet p.text) then
      scanCandidates readOk table rest (rIdx + 1)
    else (some p, rIdx + 1)

/-- The inner search loop `while not found_candidate and search_attempts < 10`
(`bot.py` lines 170-213): up to `attemptsLeft` scan attempts, each scrolling,
reading the visible elements and scanning them for a candidate.  Returns the
selected candidate (if any), the new scan and read cursors, and the emitted
`.scan` events. -/
def selectLoop (env : Env) (table : List HistoryRow) :
    Nat → Nat → Nat → Option Post × Nat × Nat × List Event
  | 0, sIdx, rIdx => (none, sIdx, rIdx, [])
  | attemptsLeft + 1, sIdx, rIdx =>
    match scanCandidates env.readOk table (env.scans sIdx) rIdx with
    | (some p, rIdx2) => (some p, sIdx + 1, rIdx2, [Event.scan])
    | (none, rIdx2) =>
      let r := selectLoop env table attemptsLeft (sIdx + 1) rIdx2
      (r.1, r.2.1, r.2.2.1, Event.scan :: r.2.2.2)

/-- The rate-limit wait (`bot.py` lines 247-251): sleep
`min_delay_between_replies - (now - last_reply_time)` when the elapsed time
is below the minimum spacing, otherwise do not sleep. -/
def computeWait (lastReplyTime now : Int) : Int :=
  if now - lastReplyTime < min_delay_between_replies
  then min_delay_between_replies - (now - lastReplyTime) else 0

/-- The reply phase of one loop iteration, after a candidate was selected and
`consecutive_failures` was reset (`bot.py` lines 226-273): generate the reply,
run the rate-limit check, attempt the reply; on success record it, increment
`replies_made` and refresh `last_reply_time`; on a `False` return or an
exception just log and continue.  Returns the updated state and the iteration
events after the scan events. -/
def afterSelect (env : Env) (st : St) (p : Post) : St × List Event :=
  let reply := ReplyEngine.generate_reply (env.genResponses st.genIdx)
    (env.genFallbackIdx st.genIdx)
  let w := computeWait st.lastReplyTime (env.clock st.clockIdx)
  match env.submitRes st.submitIdx with
  | SubmitRes.success =>
    let wOk := env.writeOk st.writeIdx
    let table2 := mark_replied wOk st.table p.tweet_id p.username p.text reply
      (env.clock (st.clockIdx + 1))
    ({ st with
        table := table2
        repliesMade := st.repliesMade + 1
        lastReplyTime := env.clock (st.clockIdx + 2)
        clockIdx := st.clockIdx + 3
        submitIdx := st.submitIdx + 1
        writeIdx := st.writeIdx + 1
        genIdx := st.genIdx + 1 },
     [Event.generate p.tweet_id, Event.rateLimit w, Event.submit p.tweet_id] ++
       (if wOk then [Event.record p.tweet_id] else []))
  | _ =>
    ({ st with
        clockIdx := st.clockIdx + 1
        submitIdx := st.submitIdx + 1
        genIdx := st.genIdx + 1 },
     [Event.generate p.tweet_id, Event.rateLimit w, Event.submit p.tweet_id])

/-- The run state after a failed selection cycle (`bot.py` 217):
`consecutive_failures` incremented and the oracle cursors advanced. -/
def failSt (st : St) (sIdx2 rIdx2 : Nat) : St :=
  { st with
    consecutiveFailures := st.consecutiveFailures + 1
    scanIdx := sIdx2
    readIdx := rIdx2 }

/-- The run state right after a successful selection (`bot.py` 224):
`consecutive_failures` reset to 0 and the oracle cursors advanced. -/
def selSt (st : St) (sIdx2 rIdx2 : Nat) : St :=
  { st with
    consecutiveFailures := 0
    scanIdx := sIdx2
    readIdx := rIdx2 }

/-- The main loop of `XReplyBot.run_once` (`bot.py` lines 162-274), with fuel
bounding the number of iterations.  Returns the final state, the full event
trace and the exit reason.  `random.shuffle` of the visible elements and the
randomized post-success sleep are environmental (the shuffled order is what
`Env.scans` supplies; the sleep changes no modelled state). -/
def runLoop (env : Env) : Nat → St → St × List Event × ExitReason
  | 0, st => (st, [], ExitReason.fuelOut)
  | fuel + 1, st =>
    if st.repliesMade < max_replies_per_run then
      match selectLoop env st.table scan_attempts_bound st.scanIdx st.readIdx with
      | (none, sIdx2, rIdx2, sevs) =>
        if MAX_FAILURES ≤ st.consecutiveFailures + 1 then
          (failSt st sIdx2 rIdx2, sevs, ExitReason.aborted)
        else
          let r := runLoop env fuel (failSt st sIdx2 rIdx2)
          (r.1, sevs ++ r.2.1, r.2.2)
      | (some p, sIdx2, rIdx2, sevs) =>
        let a := afterSelect env (selSt st sIdx2 rIdx2) p
        let r := runLoop env fuel a.1
        (r.1, sevs ++ a.2 ++ r.2.1, r.2.2)
    else (st, [], ExitReason.quotaReached)

/-- The run state at the top of `run_once`: counters zero and
`last_reply_time = 0` (`XReplyBot.__init__`, `bot.py` lines 44-56), with the
persistent table loaded from disk. -/
def initSt (table : List HistoryRow) : St :=
  { repliesMade := 0, consecutiveFailures := 0, lastReplyTime := 0,
    table := table, scanIdx := 0, readIdx := 0, writeIdx := 0,
    submitIdx := 0, clockIdx := 0, genIdx := 0 }

/-- Model of `XReplyBot.run_once` against environment `env`, starting from the
persisted `table`. -/
def run_once (env : Env) (fuel : Nat) (table : List HistoryRow) :
    St × List Event × ExitReason :=
  runLoop env fuel (initSt table)

/-- The dedup property of a trace relative to a set of already-recorded keys
`K`: every `generate` and `submit` event names an id not recorded at that
point of the trace, where `record` events extend the recorded set. -/
def dedupOK (K : List String) : List Event → Bool
  | [] => true
  | Event.scan :: rest => dedupOK K rest
  | Event.rateLimit _ :: rest => dedupOK K rest
  | Event.generate id :: rest => !(decide (id ∈ K)) && dedupOK K rest
  | Event.submit id :: rest => !(decide (id ∈ K)) && dedupOK K rest
  | Event.record id :: rest => dedupOK (id :: K) rest

end Bot

/-- A fresh, suitable post used by the concrete test environments. -/
def happyPost : Bot.Post :=
  ⟨"1", "dev".toList, "I think microservices are overrated for small teams".toList⟩

/-- A happy-path environment: every scan shows `happyPost`, database reads and
writes succeed, every submission succeeds, the backend is down (so replies come
from the fallback list), and the clock starts well past 30 s. -/
def happyEnv : Bot.Env where
  scans := fun _ => [some happyPost]
  readOk := fun _ => true
  writeOk := fun _ => true
  submitRes := fun _ => Bot.SubmitRes.success
  clock := fun i => 1000 + 100 * i
  genResponses := fun _ _ => none
  genFallbackIdx := fun _ => 0

/-- Like `happyEnv`, but every `reply_to_tweet` call returns `False`. -/
def failSubmitEnv : Bot.Env where
  scans := fun _ => [some happyPost]
  readOk := fun _ => true
  writeOk := fun _ => true
  submitRes := fun _ => Bot.SubmitRes.failed
  clock := fun i => 1000 + 100 * i
  genResponses := fun _ _ => none
  genFallbackIdx := fun _ => 0

/-- An environment whose feed never shows any element: every selection cycle
fails. -/
def emptyScanEnv : Bot.Env where
  scans := fun _ => []
  readOk := fun _ => true
  writeOk := fun _ => true
  submitRes := fun _ => Bot.SubmitRes.success
  clock := fun i => 1000 + 100 * i
  genResponses := fun _ _ => none
  genFallbackIdx := fun _ => 0

/-- A run state that has already suffered four consecutive selection failures. -/
def fourFailuresSt : Bot.St := { Bot.initSt [] with consecutiveFailures := 4 }

/-- A history table that already records a reply to tweet `42`. -/
def repliedTable : List Database.HistoryRow :=
  [⟨"42", "bob".toList, "an old tweet".toList, "an old reply".toList, 5⟩]

/-- An environment in which every database read raises (modelled by
`readOk = false`) and the feed keeps showing tweet `42`, which is already
recorded in `repliedTable`. -/
def readFailEnv : Bot.Env where
  scans := fun _ => [some ⟨"42", "bob".toList, "a perfectly fine tweet about compilers".toList⟩]
  readOk := fun _ => false
  writeOk := fun _ => true
  submitRes := fun _ => Bot.SubmitRes.success
  clock := fun i => 1000 + 100 * i
  genResponses := fun _ _ => none
  genFallbackIdx := fun _ => 0

/-! Helper lemmas about the reply engine. -/

theorem pyRfind_lt_length {c : Char} :
    ∀ {l : PyStr} {i : Nat}, ReplyEngine.pyRfind c l = some i → i < l.length := by
  intro l
  induction l with
  | nil => intro i h; simp [ReplyEngine.pyRfind] at h
  | cons x rest ih =>
    intro i h
    rw [ReplyEngine.pyRfind] at h
    cases hr : ReplyEngine.pyRfind c rest with
    | some j =>
      rw [hr] at h
      simp only [Option.some.injEq] at h
      have := ih hr
      simp [List.length_cons]
      omega
    | none =>
      rw [hr] at h
      by_cases hx : x = c
      · rw [if_pos hx] at h
        simp only [Option.some.injEq] at h
        simp [List.length_cons]
        omega
      · rw [if_neg hx] at h
        exact absurd h (by simp)

theorem truncate200_length_le (r : PyStr) : (ReplyEngine.truncate200 r).length ≤ 200 := by
  unfold ReplyEngine.truncate200
  split
  next h200 =>
    split
    next hdot =>
      cases hr : ReplyEngine.pyRfind '.' (r.take 197) with
      | none =>
        refine le_trans (List.length_take_le _ _) ?_
        decide
      | some i =>
        have hi : i < (r.take 197).length := pyRfind_lt_length hr
        have hi2 : i < 197 :=
          lt_of_lt_of_le hi (by rw [List.length_take]; exact min_le_left _ _)
        refine le_trans (List.length_take_le _ _) ?_
        simp only [Option.getD_some]
        omega
    next hdot =>
      have h3 : ("...".toList : PyStr).length = 3 := rfl
      rw [List.length_append, List.length_take, h3]
      omega
  next h200 => omega

theorem attempt_reply_length {resp : Option PyStr} {r : PyStr}
    (h : ReplyEngine.attempt_reply resp = some r) :
    5 ≤ r.length ∧ r.length ≤ 200 := by
  unfold ReplyEngine.attempt_reply at h
  cases resp with
  | none => simp at h
  | some s =>
    simp only [Option.map_some'] at h
    split at h
    · exact absurd h (by simp)
    · split at h
      next hlen => exact absurd h (by simp)
      next hlen =>
        have := Option.some.inj h
        subst this
        constructor
        · omega
        · unfold ReplyEngine.clean_reply
          exact truncate200_length_le _

theorem fallback_reply_mem (idx : Nat) :
    ReplyEngine.fallback_reply idx ∈ ReplyEngine.fallbacks := by
  unfold ReplyEngine.fallback_reply
  have h : idx % ReplyEngine.fallbacks.length < ReplyEngine.fallbacks.length :=
    Nat.mod_lt _ (by decide)
  rw [List.getD_eq_getElem _ _ h]
  exact List.getElem_mem _

theorem fallback_reply_length (idx : Nat) :
    5 ≤ (ReplyEngine.fallback_reply idx).length ∧
      (ReplyEngine.fallback_reply idx).length ≤ 200 := by
  have hall : ∀ x ∈ ReplyEngine.fallbacks, 5 ≤ x.length ∧ x.length ≤ 200 := by decide
  exact hall _ (fallback_reply_mem idx)

/-! Claim theorems about the reply engine. -/

/-- C2.  Length bound: for every backend outcome of the three attempts (any
response string, or a connection failure), the string returned by
`generate_reply` has length between 5 and 200 characters inclusive.  Moreover
the length policy behaves as specified on replies longer than 200 characters:
with no period among the first 197 characters the reply is hard-truncated to
its first 197 characters with the ellipsis marker `"..."` appended, and with a
period it is cut just after the last period within the first 197 characters. -/
theorem generate_reply_length_bound :
    (∀ (attempts : Fin 3 → Option PyStr) (fbIdx : Nat),
      5 ≤ (ReplyEngine.generate_reply attempts fbIdx).length ∧
        (ReplyEngine.generate_reply attempts fbIdx).length ≤ 200) ∧
    (∀ r : PyStr, 200 < r.length → (r.take 197).contains '.' = false →
      ReplyEngine.truncate200 r = r.take 197 ++ "...".toList) ∧
    (∀ r : PyStr, 200 < r.length → (r.take 197).contains '.' = true →
      ReplyEngine.truncate200 r =
        r.take ((ReplyEngine.pyRfind '.' (r.take 197)).getD 0 + 1)) := by
  refine ⟨?_, ?_, ?_⟩
  · intro attempts fbIdx
    unfold ReplyEngine.generate_reply
    cases h0 : ReplyEngine.attempt_reply (attempts 0) with
    | some r => exact attempt_reply_length h0
    | none =>
      cases h1 : ReplyEngine.attempt_reply (attempts 1) with
      | some r => exact attempt_reply_length h1
      | none =>
        cases h2 : ReplyEngine.attempt_reply (attempts 2) with
        | some r => exact attempt_reply_length h2
        | none => exact fallback_reply_length fbIdx
  · intro r h1 h2
    have h2m : '.' ∉ r.take 197 := by simpa using h2
    simp [ReplyEngine.truncate200, h1, h2m]
  · intro r h1 h2
    have h2m : '.' ∈ r.take 197 := by simpa using h2
    simp [ReplyEngine.truncate200, h1, h2m]

set_option maxRecDepth 100000 in
/-- Witness for C2 at concrete inputs: the all-failure backend, a 201-character
reply with no period, and a 251-character reply with one period. -/
theorem generate_reply_length_bound_witness :
    (5 ≤ (ReplyEngine.generate_reply (fun _ => none) 0).length ∧
      (ReplyEngine.generate_reply (fun _ => none) 0).length ≤ 200) ∧
    ReplyEngine.truncate200 (List.replicate 201 'a') =
      (List.replicate 201 'a').take 197 ++ "...".toList ∧
    ReplyEngine.truncate200 (List.replicate 100 'a' ++ '.' :: List.replicate 150 'b') =
      (List.replicate 100 'a' ++ '.' :: List.replicate 150 'b').take
        ((ReplyEngine.pyRfind '.'
          ((List.replicate 100 'a' ++ '.' :: List.replicate 150 'b').take 197)).getD 0 + 1) :=
  ⟨generate_reply_length_bound.1 (fun _ => none) 0,
   generate_reply_length_bound.2.1 _ (by decide) (by decide),
   generate_reply_length_bound.2.2 _ (by decide) (by decide)⟩

/-- C5.  Fallback guarantee: if every one of the 3 generation attempts fails
(backend unreachable, empty response, or cleaned reply shorter than 5
characters — exactly the cases in which `attempt_reply` yields `none`),
`generate_reply` still returns a non-empty string from the fixed fallback
list, that list has at least 15 phrases, and every phrase of the list is
reachable by some random draw (`random.choice` draws uniformly; the draw
index is the explicit `k`).  The Lean model is total, mirroring that no
exception escapes `generate_reply`. -/
theorem generate_reply_fallback_guarantee (attempts : Fin 3 → Option PyStr) (fbIdx : Nat)
    (hfail : ∀ i : Fin 3, ReplyEngine.attempt_reply (attempts i) = none) :
    ReplyEngine.generate_reply attempts fbIdx ∈ ReplyEngine.fallbacks ∧
    ReplyEngine.generate_reply attempts fbIdx ≠ [] ∧
    15 ≤ ReplyEngine.fallbacks.length ∧
    (∀ j, j < ReplyEngine.fallbacks.length →
      ∃ k, ReplyEngine.generate_reply attempts k = ReplyEngine.fallbacks.getD j []) := by
  have he : ∀ k, ReplyEngine.generate_reply attempts k = ReplyEngine.fallback_reply k := by
    intro k
    simp [ReplyEngine.generate_reply, hfail 0, hfail 1, hfail 2]
  refine ⟨?_, ?_, by decide, ?_⟩
  · rw [he]; exact fallback_reply_mem fbIdx
  · rw [he]
    have hall : ∀ x ∈ ReplyEngine.fallbacks, x ≠ [] := by decide
    exact hall _ (fallback_reply_mem fbIdx)
  · intro j hj
    refine ⟨j, ?_⟩
    rw [he]
    unfold ReplyEngine.fallback_reply
    rw [Nat.mod_eq_of_lt hj]

/-- Witness for C5 with the backend unreachable on all three attempts. -/
theorem generate_reply_fallback_guarantee_witness :
    ReplyEngine.generate_reply (fun _ => none) 7 ∈ ReplyEngine.fallbacks ∧
    ReplyEngine.generate_reply (fun _ => none) 7 ≠ [] :=
  ⟨(generate_reply_fallback_guarantee (fun _ => none) 7 (fun _ => rfl)).1,
   (generate_reply_fallback_guarantee (fun _ => none) 7 (fun _ => rfl)).2.1⟩

/-- C8.  Suitability filter vignettes: `is_appropriate_tweet` rejects the
empty string and `"ok"` (shorter than 10 characters after trimming), accepts
`"I love debugging at 2am"`, rejects every string containing `"bomb"`
case-insensitively, and rejects every entirely upper-case string longer than
20 characters.  The model is a plain function of its argument, mirroring that
the Python method reads no state and performs no side effect. -/
theorem is_appropriate_tweet_vignettes :
    ReplyEngine.is_appropriate_tweet [] = false ∧
    ReplyEngine.is_appropriate_tweet ("ok".toList) = false ∧
    ReplyEngine.is_appropriate_tweet ("I love debugging at 2am".toList) = true ∧
    (∀ s : PyStr, ReplyEngine.pySubstr ("bomb".toList) (s.map Char.toLower) = true →
      ReplyEngine.is_appropriate_tweet s = false) ∧
    (∀ s : PyStr, ReplyEngine.pyIsupper s = true → 20 < s.length →
      ReplyEngine.is_appropriate_tweet s = false) := by
  refine ⟨by decide, by decide, by decide, ?_, ?_⟩
  · intro s h
    have hany : (ReplyEngine.blocklist.any
        (fun w => ReplyEngine.pySubstr w (s.map Char.toLower))) = true := by
      rw [List.any_eq_true]
      exact ⟨"bomb".toList, by decide, h⟩
    simp [ReplyEngine.is_appropriate_tweet, hany]
  · intro s h1 h2
    simp [ReplyEngine.is_appropriate_tweet, h1, h2]

set_option maxRecDepth 100000 in
/-- Witness for C8 on a concrete string containing `"BOMB"` and a concrete
25-character all-caps string. -/
theorem is_appropriate_tweet_vignettes_witness :
    ReplyEngine.is_appropriate_tweet ("Check this BOMB tutorial out folks".toList) = false ∧
    ReplyEngine.is_appropriate_tweet (List.replicate 25 'A') = false :=
  ⟨is_appropriate_tweet_vignettes.2.2.2.1 _ (by decide),
   is_appropriate_tweet_vignettes.2.2.2.2 _ (by decide) (by decide)⟩

/-! Claim theorems about the history store. -/

theorem filter_key_mark (table : List Database.HistoryRow) (id : String)
    (u t r : PyStr) (ts : Int) :
    (Database.mark_replied true table id u t r ts).filter
        (fun row => row.tweet_id == id) = [⟨id, u, t, r, ts⟩] := by
  simp only [Database.mark_replied, if_true, List.filter_append]
  have h1 : (table.filter (fun row => !(row.tweet_id == id))).filter
      (fun row => row.tweet_id == id) = [] := by
    rw [List.filter_eq_nil_iff]
    intro a ha
    have := List.of_mem_filter ha
    simp at this ⊢
    exact this
  rw [h1]
  simp

/-- C6.  Idempotent recording: marking the same `tweet_id` replied twice
(with possibly different texts) leaves exactly one row keyed by that id in
the table, and that row carries the `reply_text` of the later call — the
`INSERT OR REPLACE` upsert on the primary key overwrites. -/
theorem mark_replied_idempotent (table : List Database.HistoryRow) (id : String)
    (u1 t1 r1 u2 t2 r2 : PyStr) (ts1 ts2 : Int) :
    ((Database.mark_replied true (Database.mark_replied true table id u1 t1 r1 ts1)
        id u2 t2 r2 ts2).filter (fun row => row.tweet_id == id)).length = 1 ∧
    (∀ row ∈ Database.mark_replied true (Database.mark_replied true table id u1 t1 r1 ts1)
        id u2 t2 r2 ts2, row.tweet_id = id → row.reply_text = r2) := by
  constructor
  · rw [filter_key_mark]
    rfl
  · intro row hrow hid
    rw [Database.mark_replied] at hrow
    simp only [if_true] at hrow
    rcases List.mem_append.mp hrow with h | h
    · have := List.of_mem_filter h
      simp [hid] at this
    · simp at h
      subst h
      rfl

/-- Witness for C6: double-marking tweet `7` on the empty table leaves one
row, whose `reply_text` is the later text. -/
theorem mark_replied_idempotent_witness :
    ((Database.mark_replied true
        (Database.mark_replied true [] "7" ("u".toList) ("t".toList) ("r1".toList) 1)
        "7" ("u".toList) ("t".toList) ("r2".toList) 2).filter
      (fun row => row.tweet_id == "7")).length = 1 ∧
    (⟨"7", "u".toList, "t".toList, "r2".toList, (2 : Int)⟩ :
      Database.HistoryRow).reply_text = "r2".toList :=
  ⟨(mark_replied_idempotent [] "7" ("u".toList) ("t".toList) ("r1".toList)
      ("u".toList) ("t".toList) ("r2".toList) 1 2).1,
   (mark_replied_idempotent [] "7" ("u".toList) ("t".toList) ("r1".toList)
      ("u".toList) ("t".toList) ("r2".toList) 1 2).2
     ⟨"7", "u".toList, "t".toList, "r2".toList, 2⟩ (by decide) (by decide)⟩

/-! Helper lemmas about the orchestrator model. -/

theorem any_key_eq_false_iff (table : List Database.HistoryRow) (id : String) :
    (table.any (fun row => row.tweet_id == id) = false) ↔
      id ∉ Database.keys table := by
  rw [← Bool.not_eq_true, List.any_eq_true]
  simp [Database.keys, List.mem_map, beq_iff_eq]

theorem scanCandidates_some (readOk : Nat → Bool) (table : List Database.HistoryRow)
    (hro : ∀ i, readOk i = true) :
    ∀ (cands : List (Option Bot.Post)) (rIdx : Nat) (p : Bot.Post),
      (Bot.scanCandidates readOk table cands rIdx).1 = some p →
      p.tweet_id ∉ Database.keys table := by
  intro cands
  induction cands with
  | nil =>
    intro rIdx p h
    simp [Bot.scanCandidates] at h
  | cons c rest ih =>
    intro rIdx p h
    cases c with
    | none =>
      rw [Bot.scanCandidates] at h
      exact ih _ _ h
    | some q =>
      rw [Bot.scanCandidates, hro rIdx] at h
      by_cases hr : Database.has_replied true table q.tweet_id = true
      · rw [if_pos hr] at h
        exact ih _ _ h
      · rw [if_neg hr] at h
        by_cases ha : ReplyEngine.is_appropriate_tweet q.text = true
        · rw [if_neg (by simp [ha])] at h
          have hq : q = p := by simpa using h
          subst hq
          have hfalse : table.any (fun row => row.tweet_id == q.tweet_id) = false := by
            unfold Database.has_replied at hr
            simpa using hr
          exact (any_key_eq_false_iff _ _).mp hfalse
        · rw [if_pos (by simp [Bool.not_eq_true] at ha ⊢; exact ha)] at h
          exact ih _ _ h

theorem selectLoop_some (env : Bot.Env) (table : List Database.HistoryRow)
    (hro : ∀ i, env.readOk i = true) :
    ∀ (n sIdx rIdx : Nat) (p : Bot.Post),
      (Bot.selectLoop env table n sIdx rIdx).1 = some p →
      p.tweet_id ∉ Database.keys table := by
  intro n
  induction n with
  | zero =>
    intro sIdx rIdx p h
    simp [Bot.selectLoop] at h
  | succ m ih =>
    intro sIdx rIdx p h
    rw [Bot.selectLoop] at h
    rcases hsc : Bot.scanCandidates env.readOk table (env.scans sIdx) rIdx with ⟨res, rIdx2⟩
    rw [hsc] at h
    cases res with
    | some q =>
      have hq : q = p := by simpa using h
      subst hq
      apply scanCandidates_some env.readOk table hro (env.scans sIdx) rIdx
      rw [hsc]
    | none =>
      exact ih _ _ p h

theorem selectLoop_scans (env : Bot.Env) (table : List Database.HistoryRow) :
    ∀ (n sIdx rIdx : Nat), ∀ e ∈ (Bot.selectLoop env table n sIdx rIdx).2.2.2,
      e = Bot.Event.scan := by
  intro n
  induction n with
  | zero =>
    intro sIdx rIdx e he
    simp [Bot.selectLoop] at he
  | succ m ih =>
    intro sIdx rIdx e he
    rw [Bot.selectLoop] at he
    rcases hsc : Bot.scanCandidates env.readOk table (env.scans sIdx) rIdx with ⟨res, rIdx2⟩
    rw [hsc] at he
    cases res with
    | some q =>
      simpa using he
    | none =>
      rcases List.mem_cons.mp he with h | h
      · exact h
      · exact ih _ _ e h

theorem dedupOK_scan_events (K : List String) :
    ∀ (l evs : List Bot.Event), (∀ e ∈ l, e = Bot.Event.scan) →
      Bot.dedupOK K (l ++ evs) = Bot.dedupOK K evs := by
  intro l
  induction l with
  | nil => intro evs _; rfl
  | cons e rest ih =>
    intro evs h
    have he : e = Bot.Event.scan := h e (List.mem_cons_self _ _)
    subst he
    rw [List.cons_append, Bot.dedupOK]
    exact ih evs (fun x hx => h x (List.mem_cons_of_mem _ hx))

theorem dedupOK_congr :
    ∀ (evs : List Bot.Event) (K K' : List String),
      (∀ x, x ∈ K ↔ x ∈ K') → Bot.dedupOK K evs = Bot.dedupOK K' evs := by
  intro evs
  induction evs with
  | nil => intro K K' _; rfl
  | cons e rest ih =>
    intro K K' h
    cases e with
    | scan => rw [Bot.dedupOK, Bot.dedupOK]; exact ih K K' h
    | rateLimit w => rw [Bot.dedupOK, Bot.dedupOK]; exact ih K K' h
    | generate id =>
      rw [Bot.dedupOK, Bot.dedupOK, ih K K' h, decide_eq_decide.mpr (h id)]
    | submit id =>
      rw [Bot.dedupOK, Bot.dedupOK, ih K K' h, decide_eq_decide.mpr (h id)]
    | record id =>
      rw [Bot.dedupOK, Bot.dedupOK]
      exact ih _ _ (fun x => by
        rw [List.mem_cons, List.mem_cons, h x])

theorem mem_keys_mark (table : List Database.HistoryRow) (id x : String)
    (u t r : PyStr) (ts : Int) :
    (x ∈ Database.keys (Database.mark_replied true table id u t r ts)) ↔
      x = id ∨ x ∈ Database.keys table := by
  simp only [Database.keys, Database.mark_replied, if_true, List.map_append,
    List.mem_append, List.mem_map, List.mem_filter]
  constructor
  · rintro (⟨a, ⟨ha, hne⟩, hx⟩ | hx)
    · exact Or.inr ⟨a, ha, hx⟩
    · simp at hx
      exact Or.inl hx.symm
  · rintro (hx | ⟨a, ha, hx⟩)
    · refine Or.inr ?_
      simp [hx]
    · by_cases hax : a.tweet_id = id
      · refine Or.inr ?_
        simp [← hx, hax]
      · exact Or.inl ⟨a, ⟨ha, by simp [hax]⟩, hx⟩

theorem afterSelect_spec (env : Bot.Env) (st : Bot.St) (p : Bot.Post) :
    ((Bot.afterSelect env st p).2 =
      [Bot.Event.generate p.tweet_id,
       Bot.Event.rateLimit (Bot.computeWait st.lastReplyTime (env.clock st.clockIdx)),
       Bot.Event.submit p.tweet_id] ++
      (if env.submitRes st.submitIdx = Bot.SubmitRes.success ∧ env.writeOk st.writeIdx = true
       then [Bot.Event.record p.tweet_id] else [])) ∧
    ((Bot.afterSelect env st p).1.table =
      if env.submitRes st.submitIdx = Bot.SubmitRes.success ∧ env.writeOk st.writeIdx = true
      then Database.mark_replied true st.table p.tweet_id p.username p.text
        (ReplyEngine.generate_reply (env.genResponses st.genIdx) (env.genFallbackIdx st.genIdx))
        (env.clock (st.clockIdx + 1))
      else st.table) := by
  unfold Bot.afterSelect
  rcases hsub : env.submitRes st.submitIdx with _ | _ | _ <;>
    rcases hw : env.writeOk st.writeIdx with _ | _ <;>
    simp [hsub, hw, Database.mark_replied]

theorem runLoop_dedupOK (env : Bot.Env) (hro : ∀ i, env.readOk i = true) :
    ∀ (fuel : Nat) (st : Bot.St),
      Bot.dedupOK (Database.keys st.table) (Bot.runLoop env fuel st).2.1 = true := by
  intro fuel
  induction fuel with
  | zero => intro st; rfl
  | succ fuel ih =>
    intro st
    rw [Bot.runLoop]
    by_cases hq : st.repliesMade < Bot.max_replies_per_run
    case neg => rw [if_neg hq]; rfl
    rw [if_pos hq]
    rcases hsel : Bot.selectLoop env st.table Bot.scan_attempts_bound st.scanIdx st.readIdx
      with ⟨sel, s2, r2, sevs⟩
    have hscans : ∀ e ∈ sevs, e = Bot.Event.scan := by
      intro e he
      apply selectLoop_scans env st.table Bot.scan_attempts_bound st.scanIdx st.readIdx e
      rw [hsel]
      exact he
    cases sel with
    | none =>
      dsimp only
      by_cases hcf : Bot.MAX_FAILURES ≤ st.consecutiveFailures + 1
      · rw [if_pos hcf]
        have h0 := dedupOK_scan_events (Database.keys st.table) sevs [] hscans
        rw [List.append_nil] at h0
        rw [h0]
        rfl
      · rw [if_neg hcf]
        rw [dedupOK_scan_events _ _ _ hscans]
        have h2 := ih (Bot.failSt st s2 r2)
        exact h2
    | some p =>
      dsimp only
      have hid : p.tweet_id ∉ Database.keys st.table := by
        apply selectLoop_some env st.table hro Bot.scan_attempts_bound st.scanIdx st.readIdx p
        rw [hsel]
      rw [List.append_assoc, dedupOK_scan_events _ _ _ hscans]
      rw [(afterSelect_spec env _ p).1]
      by_cases hrec : env.submitRes (Bot.selSt st s2 r2).submitIdx = Bot.SubmitRes.success ∧
          env.writeOk (Bot.selSt st s2 r2).writeIdx = true
      · rw [if_pos hrec]
        simp only [List.cons_append, List.nil_append, Bot.dedupOK]
        simp only [hid, decide_False, Bool.not_false, Bool.true_and]
        have htab := (afterSelect_spec env (Bot.selSt st s2 r2) p).2
        rw [if_pos hrec] at htab
        have hK : ∀ x, (x ∈ p.tweet_id :: Database.keys st.table) ↔
            (x ∈ Database.keys (Bot.afterSelect env (Bot.selSt st s2 r2) p).1.table) := by
          intro x
          rw [htab, List.mem_cons, mem_keys_mark]
          exact Iff.rfl
        calc Bot.dedupOK (p.tweet_id :: Database.keys st.table) _
            = Bot.dedupOK
                (Database.keys (Bot.afterSelect env (Bot.selSt st s2 r2) p).1.table) _ :=
              dedupOK_congr _ _ _ hK
          _ = true := ih _
      · rw [if_neg hrec]
        simp only [List.append_nil, List.cons_append, List.nil_append, Bot.dedupOK]
        simp only [hid, decide_False, Bool.not_false, Bool.true_and]
        have htab := (afterSelect_spec env (Bot.selSt st s2 r2) p).2
        rw [if_neg hrec] at htab
        have h2 := ih (Bot.afterSelect env (Bot.selSt st s2 r2) p).1
        rw [htab] at h2
        exact h2

/-- C1.  Dedup invariant: with truthful store reads (`readOk` always true),
every `generate` and every `submit` event of a `run_once` trace names a tweet
id that is not recorded in the History Store at that point — neither present
in the initial table (which, for a later run, contains everything recorded by
earlier runs) nor recorded earlier in the same run.  `run_once` checks
`db.has_replied` during selection and skips recorded candidates before any
generation or submission. -/
theorem run_once_dedup_invariant (env : Bot.Env) (fuel : Nat)
    (table : List Database.HistoryRow) (hro : ∀ i, env.readOk i = true) :
    Bot.dedupOK (Database.keys table) (Bot.run_once env fuel table).2.1 = true :=
  runLoop_dedupOK env hro fuel (Bot.initSt table)

/-- Witness for C1: a two-iteration run in the happy-path environment; the
second iteration re-encounters the recorded tweet and skips it. -/
theorem run_once_dedup_invariant_witness :
    Bot.dedupOK (Database.keys []) (Bot.run_once happyEnv 2 []).2.1 = true :=
  run_once_dedup_invariant happyEnv 2 [] (fun _ => rfl)

set_option maxRecDepth 100000 in
/-- C3 counterexample: in a concrete happy-path run the `generate` event
(Reply Generator invocation, `bot.py` 233) comes strictly before the
`rateLimit` event (the rate-limit wait, `bot.py` 246-251), refuting the
claimed order in which RateLimiting takes place before Generating. -/
theorem rateLimit_after_generate_counterexample :
    (Bot.run_once happyEnv 1 []).2.1 =
      [Bot.Event.scan, Bot.Event.generate "1", Bot.Event.rateLimit 0,
       Bot.Event.submit "1", Bot.Event.record "1"] ∧
    (Bot.run_once happyEnv 1 []).2.1.indexOf (Bot.Event.generate "1") <
      (Bot.run_once happyEnv 1 []).2.1.indexOf (Bot.Event.rateLimit 0) := by
  constructor
  · decide
  · decide

/-- C3 (amended).  State order: every successful loop iteration emits its
events in the order Scanning/Selecting (the `scan` events), then Generating
(`generate`), then RateLimiting (`rateLimit`), then Submitting (`submit`),
then — when the submission succeeded and the write went through — Recording
(`record`); the rate-limit wait takes place after the Reply Generator is
invoked and before submission, not before generation. -/
theorem iteration_event_order (env : Bot.Env) (st : Bot.St) (p : Bot.Post) :
    ((Bot.afterSelect env st p).2 =
      [Bot.Event.generate p.tweet_id,
       Bot.Event.rateLimit (Bot.computeWait st.lastReplyTime (env.clock st.clockIdx)),
       Bot.Event.submit p.tweet_id] ++
      (if env.submitRes st.submitIdx = Bot.SubmitRes.success ∧ env.writeOk st.writeIdx = true
       then [Bot.Event.record p.tweet_id] else [])) ∧
    (∀ (fuel s2 r2 : Nat) (sevs : List Bot.Event),
      st.repliesMade < Bot.max_replies_per_run →
      Bot.selectLoop env st.table Bot.scan_attempts_bound st.scanIdx st.readIdx =
        (some p, s2, r2, sevs) →
      (∀ e ∈ sevs, e = Bot.Event.scan) ∧
      (Bot.runLoop env (fuel + 1) st).2.1 =
        sevs ++ (Bot.afterSelect env (Bot.selSt st s2 r2) p).2 ++
          (Bot.runLoop env fuel (Bot.afterSelect env (Bot.selSt st s2 r2) p).1).2.1) := by
  constructor
  · exact (afterSelect_spec env st p).1
  · intro fuel s2 r2 sevs hq hsel
    constructor
    · intro e he
      apply selectLoop_scans env st.table Bot.scan_attempts_bound st.scanIdx st.readIdx e
      rw [hsel]
      exact he
    · rw [Bot.runLoop, if_pos hq, hsel]

/-- Witness for C3 (amended) on the happy-path environment. -/
theorem iteration_event_order_witness :
    (Bot.runLoop happyEnv (0 + 1) (Bot.initSt [])).2.1 =
      [Bot.Event.scan] ++ (Bot.afterSelect happyEnv (Bot.selSt (Bot.initSt []) 1 1) happyPost).2 ++
        (Bot.runLoop happyEnv 0
          (Bot.afterSelect happyEnv (Bot.selSt (Bot.initSt []) 1 1) happyPost).1).2.1 :=
  ((iteration_event_order happyEnv (Bot.initSt []) happyPost).2 0 1 1 [Bot.Event.scan]
    (by decide) (by decide)).2

/-- C4.  Failure budget: on a failed selection cycle (with the per-run quota
still open) `run_once` increments `consecutive_failures`; as soon as the
incremented counter reaches `MAX_FAILURES = 5` the loop returns immediately
with `Aborted` — its whole remaining trace is that cycle's scan events, so no
further candidate lookups happen in the run; below the budget the loop
continues from the incremented state.  On a successful selection the loop
continues with `consecutive_failures` reset to 0 (the `selSt` state). -/
theorem failure_budget (env : Bot.Env) (fuel : Nat) (st : Bot.St)
    (hq : st.repliesMade < Bot.max_replies_per_run) :
    (∀ (s2 r2 : Nat) (sevs : List Bot.Event),
      Bot.selectLoop env st.table Bot.scan_attempts_bound st.scanIdx st.readIdx =
        (none, s2, r2, sevs) →
      (Bot.MAX_FAILURES ≤ st.consecutiveFailures + 1 →
        Bot.runLoop env (fuel + 1) st =
          (Bot.failSt st s2 r2, sevs, Bot.ExitReason.aborted)) ∧
      (st.consecutiveFailures + 1 < Bot.MAX_FAILURES →
        Bot.runLoop env (fuel + 1) st =
          ((Bot.runLoop env fuel (Bot.failSt st s2 r2)).1,
           sevs ++ (Bot.runLoop env fuel (Bot.failSt st s2 r2)).2.1,
           (Bot.runLoop env fuel (Bot.failSt st s2 r2)).2.2))) ∧
    (∀ (p : Bot.Post) (s2 r2 : Nat) (sevs : List Bot.Event),
      Bot.selectLoop env st.table Bot.scan_attempts_bound st.scanIdx st.readIdx =
        (some p, s2, r2, sevs) →
      Bot.runLoop env (fuel + 1) st =
        ((Bot.runLoop env fuel (Bot.afterSelect env (Bot.selSt st s2 r2) p).1).1,
         sevs ++ (Bot.afterSelect env (Bot.selSt st s2 r2) p).2 ++
           (Bot.runLoop env fuel (Bot.afterSelect env (Bot.selSt st s2 r2) p).1).2.1,
         (Bot.runLoop env fuel (Bot.afterSelect env (Bot.selSt st s2 r2) p).1).2.2)) := by
  constructor
  · intro s2 r2 sevs hsel
    constructor
    · intro hcf
      rw [Bot.runLoop, if_pos hq, hsel]
      dsimp only
      rw [if_pos hcf]
    · intro hcf
      rw [Bot.runLoop, if_pos hq, hsel]
      dsimp only
      rw [if_neg (by omega)]
  · intro p s2 r2 sevs hsel
    rw [Bot.runLoop, if_pos hq, hsel]

/-- Witness for C4: with an empty feed and four prior consecutive failures,
the next cycle runs its ten scan attempts, increments the counter to five and
aborts with no further events. -/
theorem failure_budget_witness :
    Bot.runLoop emptyScanEnv (0 + 1) fourFailuresSt =
      (Bot.failSt fourFailuresSt 10 0, List.replicate 10 Bot.Event.scan,
       Bot.ExitReason.aborted) :=
  (((failure_budget emptyScanEnv 0 fourFailuresSt (by decide)).1 10 0
    (List.replicate 10 Bot.Event.scan) (by decide)).1) (by decide)

/-- C7.  Submission-failure atomicity: when the dispatcher call returns
`False` or raises (`submitRes ≠ success`), the iteration just logs and the
loop continues from a state with the history table, `replies_made`,
`last_reply_time` and `write` cursor unchanged and `consecutive_failures`
still 0 (not incremented); the iteration events are only `generate`,
`rateLimit` and `submit` — no `record` is written. -/
theorem submission_failure_atomic (env : Bot.Env) (st : Bot.St) (p : Bot.Post)
    (hfail : env.submitRes st.submitIdx ≠ Bot.SubmitRes.success) :
    ((Bot.afterSelect env st p).1.table = st.table ∧
     (Bot.afterSelect env st p).1.repliesMade = st.repliesMade ∧
     (Bot.afterSelect env st p).1.lastReplyTime = st.lastReplyTime ∧
     (Bot.afterSelect env st p).1.consecutiveFailures = st.consecutiveFailures ∧
     (Bot.afterSelect env st p).1.writeIdx = st.writeIdx) ∧
    (Bot.afterSelect env st p).2 =
      [Bot.Event.generate p.tweet_id,
       Bot.Event.rateLimit (Bot.computeWait st.lastReplyTime (env.clock st.clockIdx)),
       Bot.Event.submit p.tweet_id] ∧
    (∀ id, Bot.Event.record id ∉ (Bot.afterSelect env st p).2) := by
  unfold Bot.afterSelect
  rcases hsub : env.submitRes st.submitIdx with _ | _ | _
  · exact absurd hsub hfail
  · refine ⟨⟨rfl, rfl, rfl, rfl, rfl⟩, rfl, ?_⟩
    intro id hmem
    simp at hmem
  · refine ⟨⟨rfl, rfl, rfl, rfl, rfl⟩, rfl, ?_⟩
    intro id hmem
    simp at hmem

/-- Witness for C7 in the environment whose submissions always fail. -/
theorem submission_failure_atomic_witness :
    (Bot.afterSelect failSubmitEnv (Bot.initSt []) happyPost).1.table = [] ∧
    (Bot.afterSelect failSubmitEnv (Bot.initSt []) happyPost).1.repliesMade = 0 ∧
    (Bot.afterSelect failSubmitEnv (Bot.initSt []) happyPost).2 =
      [Bot.Event.generate "1", Bot.Event.rateLimit 0, Bot.Event.submit "1"] := by
  have h := submission_failure_atomic failSubmitEnv (Bot.initSt []) happyPost (by decide)
  refine ⟨h.1.1, h.1.2.1, ?_⟩
  rw [h.2.1]
  decide

/-- C9 (implicit).  The dedup check fails open: when the database query
raises, `has_replied` returns `False` rather than propagating the error, so
under read failures an already-recorded tweet id passes the dedup check — in
the concrete environment `readFailEnv`, tweet `42` is already in the store,
yet the run generates and submits a duplicate reply for it, violating the
dedup property of the trace. -/
theorem has_replied_fails_open :
    (∀ (table : List Database.HistoryRow) (id : String),
      Database.has_replied false table id = false) ∧
    Database.has_replied true repliedTable "42" = true ∧
    Bot.Event.generate "42" ∈ (Bot.run_once readFailEnv 1 repliedTable).2.1 ∧
    Bot.Event.submit "42" ∈ (Bot.run_once readFailEnv 1 repliedTable).2.1 ∧
    Bot.dedupOK (Database.keys repliedTable) (Bot.run_once readFailEnv 1 repliedTable).2.1 =
      false := by
  refine ⟨fun table id => rfl, by decide, by decide, by decide, by decide⟩

/-- C10.  The rate limiter never delays the first reply of a bot instance:
`last_reply_time` starts at 0 (`XReplyBot.__init__`), so with any clock at
least 30 s past the epoch the first rate-limit check computes a zero wait,
whatever any previous process did; and `last_reply_time` changes only on a
successful submission (to the fresh clock reading), so the 30-second spacing
constrains only successes within one instance's lifetime. -/
theorem first_reply_not_delayed :
    (∀ table, (Bot.initSt table).lastReplyTime = 0) ∧
    (∀ now : Int, 30 ≤ now → Bot.computeWait 0 now = 0) ∧
    (∀ (env : Bot.Env) (st : Bot.St) (p : Bot.Post),
      st.lastReplyTime = 0 → 30 ≤ env.clock st.clockIdx →
      ((Bot.afterSelect env st p).2).take 2 =
        [Bot.Event.generate p.tweet_id, Bot.Event.rateLimit 0]) ∧
    (∀ (env : Bot.Env) (st : Bot.St) (p : Bot.Post),
      env.submitRes st.submitIdx ≠ Bot.SubmitRes.success →
      (Bot.afterSelect env st p).1.lastReplyTime = st.lastReplyTime) ∧
    (∀ (env : Bot.Env) (st : Bot.St) (p : Bot.Post),
      env.submitRes st.submitIdx = Bot.SubmitRes.success →
      (Bot.afterSelect env st p).1.lastReplyTime = env.clock (st.clockIdx + 2)) := by
  have hw : ∀ now : Int, 30 ≤ now → Bot.computeWait 0 now = 0 := by
    intro now h
    unfold Bot.computeWait Bot.min_delay_between_replies
    rw [if_neg (by omega)]
  refine ⟨fun table => rfl, hw, ?_, ?_, ?_⟩
  · intro env st p h0 hclock
    unfold Bot.afterSelect
    rcases hsub : env.submitRes st.submitIdx with _ | _ | _ <;>
      simp [h0, hw _ hclock]
  · intro env st p hfail
    unfold Bot.afterSelect
    rcases hsub : env.submitRes st.submitIdx with _ | _ | _
    · exact absurd hsub hfail
    · rfl
    · rfl
  · intro env st p hsucc
    unfold Bot.afterSelect
    rcases hsub : env.submitRes st.submitIdx with _ | _ | _
    · rfl
    · rw [hsub] at hsucc; simp at hsucc
    · rw [hsub] at hsucc; simp at hsucc

/-- Witness for C10 at a concrete epoch clock and the happy-path run. -/
theorem first_reply_not_delayed_witness :
    Bot.computeWait 0 1700000000 = 0 ∧
    ((Bot.afterSelect happyEnv (Bot.initSt []) happyPost).2).take 2 =
      [Bot.Event.generate "1", Bot.Event.rateLimit 0] :=
  ⟨first_reply_not_delayed.2.1 1700000000 (by decide),
   first_reply_not_delayed.2.2.1 happyEnv (Bot.initSt []) happyPost rfl (by decide)⟩

end ReplyGuy
